import Mathlib

/-!
# Feedback-Findr: verification of the sentiment classifier and credit gate

A shallow embedding of the repository's edge function (`analyzeSentiment`
and the surrounding `serve` handler) together with the database state the
handler manipulates (the `feedback` table and the singleton `credits` row).

Numeric confidence values are modelled in `ℚ`; the handler's interactions
with the store are modelled by explicit state passing, with the possible
store failures (credits row unreadable, feedback insert failing, credits
update failing) made explicit in the state.
-/

/-- Sentiment labels, as in the `sentiment` column check constraint and the
three branches of `analyzeSentiment`. -/
inductive Sentiment where
  | positive
  | negative
  | neutral
deriving DecidableEq, Repr

/-- JS `String.prototype.includes`: `strIncludes hay pat` is true when the
character sequence `pat` occurs contiguously inside `hay`. -/
def strIncludes (hay pat : List Char) : Bool :=
  match hay with
  | [] => pat.isEmpty
  | _ :: rest => pat.isPrefixOf hay || strIncludes rest pat

/-- The fixed `positiveWords` list of `analyzeSentiment`. -/
def positiveWords : List String :=
  ["good", "great", "excellent", "amazing", "love", "awesome", "fantastic",
   "wonderful", "perfect", "best", "happy", "satisfied", "pleased"]

/-- The fixed `negativeWords` list of `analyzeSentiment`. -/
def negativeWords : List String :=
  ["bad", "terrible", "awful", "hate", "worst", "horrible", "disappointing",
   "poor", "angry", "frustrated", "upset"]

/-- `text.toLowerCase()`, on the character sequence of the text. -/
def toLowerChars (text : String) : List Char :=
  text.toList.map Char.toLower

/-- The `forEach` loops of `analyzeSentiment`: each keyword in `words` that
occurs in `lowerText` bumps the score by one. -/
def countMatches (lowerText : List Char) (words : List String) : Nat :=
  words.countP (fun w => strIncludes lowerText w.toList)

/-- The local `positiveScore` of `analyzeSentiment`. -/
def positiveScore (text : String) : Nat :=
  countMatches (toLowerChars text) positiveWords

/-- The local `negativeScore` of `analyzeSentiment`. -/
def negativeScore (text : String) : Nat :=
  countMatches (toLowerChars text) negativeWords

/-- `analyzeSentiment` from the edge function: lower-case the text, count
keyword matches on each side, and decide by strict comparison, with
`Math.min`-capped confidence on a decided side and fixed 0.7 on ties. -/
def analyzeSentiment (text : String) : Sentiment × ℚ :=
  if positiveScore text > negativeScore text then
    (Sentiment.positive, min (0.95 : ℚ) (0.6 + (positiveScore text : ℚ) * 0.1))
  else if negativeScore text > positiveScore text then
    (Sentiment.negative, min (0.95 : ℚ) (0.6 + (negativeScore text : ℚ) * 0.1))
  else
    (Sentiment.neutral, 0.7)

/-- The singleton row of the `credits` table. -/
structure CreditsRow where
  id : Nat
  credits_used : Int
  max_credits : Int
deriving DecidableEq, Repr

/-- A row of the `feedback` table. -/
structure FeedbackRow where
  id : Nat
  feedback_text : String
  sentiment : Sentiment
  confidence_score : ℚ
deriving DecidableEq, Repr

/-- The store state seen by one request, with the three possible store
failures (credits select failing or returning no row, feedback insert
failing, credits update failing) made explicit. -/
structure Db where
  creditsRow : Option CreditsRow
  feedback : List FeedbackRow
  nextFeedbackId : Nat
  insertFails : Bool
  updateFails : Bool
deriving DecidableEq, Repr

/-- The JSON body the handler returns: either the 200 success payload
(`id`, `sentiment`, `confidence`, `credits_remaining`) or an error object
with its HTTP status. -/
inductive Response where
  | success (id : Nat) (sentiment : Sentiment) (confidence : ℚ)
      (credits_remaining : Int)
  | failure (status : Nat) (error : String)
deriving DecidableEq, Repr

/-- The `serve` handler of the edge function, as a function from the
(parsed) request body and store state to the response and the new store
state.  `none` models a body whose `feedback_text` field is absent; the
empty string is rejected the same way, matching the JS falsiness check. -/
def handleRequest (feedback_text : Option String) (db : Db) : Response × Db :=
  match feedback_text with
  | none => (Response.failure 400 "Feedback text is required", db)
  | some text =>
    if text = "" then
      (Response.failure 400 "Feedback text is required", db)
    else
      match db.creditsRow with
      | none => (Response.failure 500 "Unable to check credits", db)
      | some creditsData =>
        if creditsData.credits_used ≥ creditsData.max_credits then
          (Response.failure 429 "Credit limit reached. You have used all 5 credits.", db)
        else
          let analysis := analyzeSentiment text
          if db.insertFails then
            (Response.failure 500 "Failed to store feedback", db)
          else
            let record : FeedbackRow :=
              { id := db.nextFeedbackId, feedback_text := text,
                sentiment := analysis.1, confidence_score := analysis.2 }
            let dbStored : Db :=
              { db with feedback := db.feedback ++ [record],
                        nextFeedbackId := db.nextFeedbackId + 1 }
            let updatedCredits : CreditsRow :=
              { creditsData with credits_used := creditsData.credits_used + 1 }
            let dbFinal : Db :=
              if db.updateFails then dbStored
              else { dbStored with creditsRow := some updatedCredits }
            (Response.success record.id analysis.1 analysis.2
              (creditsData.max_credits - (creditsData.credits_used + 1)), dbFinal)

/-- Concrete store state: fresh counter, empty feedback table, no failures. -/
def dbReady : Db :=
  { creditsRow := some ({ id := 1, credits_used := 0, max_credits := 5 }),
    feedback := [], nextFeedbackId := 1, insertFails := false, updateFails := false }

/-- Concrete store state whose counter is exhausted. -/
def dbExhausted : Db :=
  { dbReady with creditsRow := some ({ id := 1, credits_used := 5, max_credits := 5 }) }

/-- Concrete store state whose credits row cannot be read. -/
def dbNoCredits : Db :=
  { dbReady with creditsRow := none }

/-- Concrete store state whose feedback insert fails. -/
def dbInsertFailing : Db :=
  { dbReady with insertFails := true }

/-- Concrete store state whose credits update fails. -/
def dbUpdateFailing : Db :=
  { dbReady with updateFails := true }

/-! ## Shared evaluation lemmas -/

/-- When the positive count strictly wins, `analyzeSentiment` takes the
positive branch. -/
theorem analyzeSentiment_eq_positive {text : String}
    (h : negativeScore text < positiveScore text) :
    analyzeSentiment text =
      (Sentiment.positive, min (0.95 : ℚ) (0.6 + (positiveScore text : ℚ) * 0.1)) := by
  simp only [analyzeSentiment]
  rw [if_pos h]

/-- When the negative count strictly wins, `analyzeSentiment` takes the
negative branch. -/
theorem analyzeSentiment_eq_negative {text : String}
    (h : positiveScore text < negativeScore text) :
    analyzeSentiment text =
      (Sentiment.negative, min (0.95 : ℚ) (0.6 + (negativeScore text : ℚ) * 0.1)) := by
  simp only [analyzeSentiment]
  rw [if_neg (by omega), if_pos h]

/-- On a tie, `analyzeSentiment` takes the neutral branch. -/
theorem analyzeSentiment_eq_neutral {text : String}
    (h : positiveScore text = negativeScore text) :
    analyzeSentiment text = (Sentiment.neutral, 0.7) := by
  simp only [analyzeSentiment]
  rw [if_neg (by omega), if_neg (by omega)]

/-- The handler on a present, non-empty text, a readable credits row and a
non-exhausted counter, with the insert succeeding: the stored record, the
final store state and the success response. -/
theorem handleRequest_success (text : String) (db : Db) (c : CreditsRow)
    (ht : text ≠ "") (hc : db.creditsRow = some c)
    (hlt : c.credits_used < c.max_credits) (hins : db.insertFails = false) :
    handleRequest (some text) db =
      (Response.success db.nextFeedbackId (analyzeSentiment text).1
        (analyzeSentiment text).2 (c.max_credits - (c.credits_used + 1)),
       let record : FeedbackRow :=
         { id := db.nextFeedbackId, feedback_text := text,
           sentiment := (analyzeSentiment text).1,
           confidence_score := (analyzeSentiment text).2 }
       let dbStored : Db :=
         { db with feedback := db.feedback ++ [record],
                   nextFeedbackId := db.nextFeedbackId + 1 }
       let updatedCredits : CreditsRow :=
         { c with credits_used := c.credits_used + 1 }
       if db.updateFails then dbStored
       else { dbStored with creditsRow := some updatedCredits }) := by
  simp only [handleRequest, hc, if_neg ht, hins, Bool.false_eq_true, if_neg,
    not_false_eq_true, if_neg (not_le.mpr hlt)]

/-- The handler on a present, non-empty text when the credits row cannot be
read: a 500 error and an unchanged store. -/
theorem handleRequest_creditsUnreadable (text : String) (db : Db)
    (ht : text ≠ "") (hc : db.creditsRow = none) :
    handleRequest (some text) db =
      (Response.failure 500 "Unable to check credits", db) := by
  simp only [handleRequest, hc, if_neg ht]

/-- The handler on a present, non-empty text when the counter is exhausted:
a 429 error and an unchanged store. -/
theorem handleRequest_exhausted (text : String) (db : Db) (c : CreditsRow)
    (ht : text ≠ "") (hc : db.creditsRow = some c)
    (hge : c.credits_used ≥ c.max_credits) :
    handleRequest (some text) db =
      (Response.failure 429 "Credit limit reached. You have used all 5 credits.", db) := by
  simp only [handleRequest, hc, if_neg ht, if_pos hge]

/-- The handler on a present, non-empty text, a non-exhausted counter and a
failing feedback insert: a 500 error and an unchanged store. -/
theorem handleRequest_insertFailed (text : String) (db : Db) (c : CreditsRow)
    (ht : text ≠ "") (hc : db.creditsRow = some c)
    (hlt : c.credits_used < c.max_credits) (hins : db.insertFails = true) :
    handleRequest (some text) db =
      (Response.failure 500 "Failed to store feedback", db) := by
  simp only [handleRequest, hc, if_neg ht, if_neg (not_le.mpr hlt), hins, if_pos]

/-! ## Claims -/

/-- C1: for every non-empty input text, `analyzeSentiment` returns
`positive` exactly when the positive match count strictly exceeds the
negative one, `negative` exactly when the negative count strictly exceeds
the positive one, and `(neutral, 0.7)` whenever the two counts are equal
(including when both are zero). -/
theorem c1_decision_rule (text : String) (h : text ≠ "") :
    ((analyzeSentiment text).1 = Sentiment.positive ↔
      positiveScore text > negativeScore text) ∧
    ((analyzeSentiment text).1 = Sentiment.negative ↔
      negativeScore text > positiveScore text) ∧
    (positiveScore text = negativeScore text →
      analyzeSentiment text = (Sentiment.neutral, 0.7)) := by
  rcases lt_trichotomy (negativeScore text) (positiveScore text) with hlt | heq | hgt
  · rw [analyzeSentiment_eq_positive hlt]
    refine ⟨?_, ?_, ?_⟩ <;> simp <;> omega
  · rw [analyzeSentiment_eq_neutral heq.symm]
    refine ⟨?_, ?_, ?_⟩ <;> simp <;> omega
  · rw [analyzeSentiment_eq_negative hgt]
    refine ⟨?_, ?_, ?_⟩ <;> simp <;> omega

/-- Witness for C1: the tie case at the concrete text "meh". -/
theorem c1_decision_rule_witness :
    analyzeSentiment "meh" = (Sentiment.neutral, 0.7) :=
  (c1_decision_rule "meh" (by decide)).2.2 (by decide)

/-- C2: whenever `analyzeSentiment` decides a side, the returned confidence
is `min 0.95 (0.6 + 0.1 × k)` where `k` is the winning side's match
count. -/
theorem c2_confidence_formula (text : String) :
    ((analyzeSentiment text).1 = Sentiment.positive →
      (analyzeSentiment text).2 =
        min (0.95 : ℚ) (0.6 + 0.1 * (positiveScore text : ℚ))) ∧
    ((analyzeSentiment text).1 = Sentiment.negative →
      (analyzeSentiment text).2 =
        min (0.95 : ℚ) (0.6 + 0.1 * (negativeScore text : ℚ))) := by
  rcases lt_trichotomy (negativeScore text) (positiveScore text) with hlt | heq | hgt
  · rw [analyzeSentiment_eq_positive hlt]
    constructor
    · intro
      simp only
      rw [mul_comm]
    · intro hcontra
      simp at hcontra
  · rw [analyzeSentiment_eq_neutral heq.symm]
    constructor <;> intro hcontra <;> simp at hcontra
  · rw [analyzeSentiment_eq_negative hgt]
    constructor
    · intro hcontra
      simp at hcontra
    · intro
      simp only
      rw [mul_comm]

/-- Witness for C2: the positive side at the concrete text "good". -/
theorem c2_confidence_formula_witness :
    (analyzeSentiment "good").2 =
      min (0.95 : ℚ) (0.6 + 0.1 * (positiveScore "good" : ℚ)) :=
  (c2_confidence_formula "good").1 (by decide)

/-- C4: in every branch, the confidence returned by `analyzeSentiment` is
at most 0.95. -/
theorem c4_confidence_le (text : String) :
    (analyzeSentiment text).2 ≤ 0.95 := by
  rcases lt_trichotomy (negativeScore text) (positiveScore text) with hlt | heq | hgt
  · rw [analyzeSentiment_eq_positive hlt]
    exact min_le_left _ _
  · rw [analyzeSentiment_eq_neutral heq.symm]
    norm_num
  · rw [analyzeSentiment_eq_negative hgt]
    exact min_le_left _ _

/-- C5: a text matching at least one positive keyword and no negative
keyword is classified positive. -/
theorem c5_positive_only (text : String)
    (h1 : 1 ≤ positiveScore text) (h2 : negativeScore text = 0) :
    (analyzeSentiment text).1 = Sentiment.positive := by
  rw [analyzeSentiment_eq_positive (by omega)]

/-- Witness for C5: the concrete text "good". -/
theorem c5_positive_only_witness :
    (analyzeSentiment "good").1 = Sentiment.positive :=
  c5_positive_only "good" (by decide) (by decide)

/-- C9: the concrete text "This is great and awesome" is classified
positive with confidence exactly 0.8. -/
theorem c9_example :
    analyzeSentiment "This is great and awesome" = (Sentiment.positive, 0.8) := by
  have hp : positiveScore "This is great and awesome" = 2 := by decide
  have hn : negativeScore "This is great and awesome" = 0 := by decide
  rw [analyzeSentiment_eq_positive (by omega), hp]
  norm_num [min_def]

/-- C3: with the stored counter at or above the cap, a submission with a
present, non-empty text is rejected with a 429 error, the store is left
unchanged, and in particular no feedback record is created. -/
theorem c3_gate_rejects (text : String) (db : Db) (c : CreditsRow)
    (ht : text ≠ "") (hc : db.creditsRow = some c)
    (hge : c.credits_used ≥ c.max_credits) :
    handleRequest (some text) db =
      (Response.failure 429 "Credit limit reached. You have used all 5 credits.", db) ∧
    (handleRequest (some text) db).2.feedback = db.feedback := by
  have h := handleRequest_exhausted text db c ht hc hge
  exact ⟨h, by rw [h]⟩

/-- Witness for C3: an exhausted concrete counter rejects the text "good". -/
theorem c3_gate_rejects_witness :
    handleRequest (some "good") dbExhausted =
      (Response.failure 429 "Credit limit reached. You have used all 5 credits.",
       dbExhausted) :=
  (c3_gate_rejects "good" dbExhausted
    ({ id := 1, credits_used := 5, max_credits := 5 }) (by decide) rfl (by decide)).1

/-- C6: on the success path the response reports
`credits_remaining = max_credits − (credits_used_read_before + 1)`. -/
theorem c6_credits_remaining (text : String) (db : Db) (c : CreditsRow)
    (ht : text ≠ "") (hc : db.creditsRow = some c)
    (hlt : c.credits_used < c.max_credits) (hins : db.insertFails = false) :
    (handleRequest (some text) db).1 =
      Response.success db.nextFeedbackId (analyzeSentiment text).1
        (analyzeSentiment text).2 (c.max_credits - (c.credits_used + 1)) := by
  rw [handleRequest_success text db c ht hc hlt hins]

/-- Witness for C6: the fresh concrete store on the text "good". -/
theorem c6_credits_remaining_witness :
    (handleRequest (some "good") dbReady).1 =
      Response.success 1 (analyzeSentiment "good").1 (analyzeSentiment "good").2
        (5 - (0 + 1)) :=
  c6_credits_remaining "good" dbReady
    ({ id := 1, credits_used := 0, max_credits := 5 }) (by decide) rfl (by decide) rfl

/-- C7: when the credits update write fails after a successful insert, the
handler still returns the success response (id, sentiment, confidence,
credits remaining); the record is stored and the counter is left as read. -/
theorem c7_update_failure_tolerated (text : String) (db : Db) (c : CreditsRow)
    (ht : text ≠ "") (hc : db.creditsRow = some c)
    (hlt : c.credits_used < c.max_credits) (hins : db.insertFails = false)
    (hupd : db.updateFails = true) :
    (handleRequest (some text) db).1 =
      Response.success db.nextFeedbackId (analyzeSentiment text).1
        (analyzeSentiment text).2 (c.max_credits - (c.credits_used + 1)) ∧
    (handleRequest (some text) db).2.feedback =
      db.feedback ++
        [{ id := db.nextFeedbackId, feedback_text := text,
           sentiment := (analyzeSentiment text).1,
           confidence_score := (analyzeSentiment text).2 }] ∧
    (handleRequest (some text) db).2.creditsRow = db.creditsRow := by
  rw [handleRequest_success text db c ht hc hlt hins]
  refine ⟨rfl, ?_, ?_⟩ <;> simp [hupd]

/-- Witness for C7: the concrete store whose update write fails, on the
text "good". -/
theorem c7_update_failure_tolerated_witness :
    (handleRequest (some "good") dbUpdateFailing).1 =
      Response.success 1 (analyzeSentiment "good").1 (analyzeSentiment "good").2
        (5 - (0 + 1)) :=
  (c7_update_failure_tolerated "good" dbUpdateFailing
    ({ id := 1, credits_used := 0, max_credits := 5 })
    (by decide) rfl (by decide) rfl rfl).1

/-- C8: the handler's error statuses: 400 when the text field is absent,
429 when the counter is exhausted, 500 when the credits row cannot be read
and 500 when the feedback insert fails. -/
theorem c8_statuses (db : Db) :
    handleRequest none db = (Response.failure 400 "Feedback text is required", db) ∧
    (∀ text c, text ≠ "" → db.creditsRow = some c →
      c.credits_used ≥ c.max_credits →
      (handleRequest (some text) db).1 =
        Response.failure 429 "Credit limit reached. You have used all 5 credits.") ∧
    (∀ text, text ≠ "" → db.creditsRow = none →
      (handleRequest (some text) db).1 =
        Response.failure 500 "Unable to check credits") ∧
    (∀ text c, text ≠ "" → db.creditsRow = some c →
      c.credits_used < c.max_credits → db.insertFails = true →
      (handleRequest (some text) db).1 =
        Response.failure 500 "Failed to store feedback") := by
  refine ⟨rfl, ?_, ?_, ?_⟩
  · intro text c ht hc hge
    rw [handleRequest_exhausted text db c ht hc hge]
  · intro text ht hc
    rw [handleRequest_creditsUnreadable text db ht hc]
  · intro text c ht hc hlt hins
    rw [handleRequest_insertFailed text db c ht hc hlt hins]

/-- Witness for C8: each error path at a concrete store. -/
theorem c8_statuses_witness :
    handleRequest none dbReady =
      (Response.failure 400 "Feedback text is required", dbReady) ∧
    (handleRequest (some "good") dbExhausted).1 =
      Response.failure 429 "Credit limit reached. You have used all 5 credits." ∧
    (handleRequest (some "good") dbNoCredits).1 =
      Response.failure 500 "Unable to check credits" ∧
    (handleRequest (some "good") dbInsertFailing).1 =
      Response.failure 500 "Failed to store feedback" :=
  ⟨(c8_statuses dbReady).1,
   (c8_statuses dbExhausted).2.1 "good"
     ({ id := 1, credits_used := 5, max_credits := 5 }) (by decide) rfl (by decide),
   (c8_statuses dbNoCredits).2.2.1 "good" (by decide) rfl,
   (c8_statuses dbInsertFailing).2.2.2 "good"
     ({ id := 1, credits_used := 0, max_credits := 5 }) (by decide) rfl (by decide) rfl⟩

/-- C10: keyword matching is substring containment on the lower-cased text
(so classification only depends on the lower-cased characters, a keyword
inside a longer word such as "bad" inside "badge" matches, and repeating a
keyword does not raise the score), and each keyword contributes at most 1,
so the positive count is at most 13 and the negative count at most 11. -/
theorem c10_matching_semantics :
    (∀ text : String, positiveScore text ≤ 13 ∧ negativeScore text ≤ 11) ∧
    (∀ s t : String, toLowerChars s = toLowerChars t →
      analyzeSentiment s = analyzeSentiment t) ∧
    (analyzeSentiment "badge").1 = Sentiment.negative ∧
    negativeScore "badge" = 1 ∧
    positiveScore "good good good" = positiveScore "good" := by
  refine ⟨?_, ?_, ?_, ?_, ?_⟩
  · intro text
    constructor
    · exact le_trans (List.countP_le_length _) (by decide)
    · exact le_trans (List.countP_le_length _) (by decide)
  · intro s t h
    simp only [analyzeSentiment, positiveScore, negativeScore, countMatches, h]
  · decide
  · decide
  · decide

/-- Witness for C10: "GREAT" and "great" classify identically. -/
theorem c10_matching_semantics_witness :
    analyzeSentiment "GREAT" = analyzeSentiment "great" :=
  c10_matching_semantics.2.1 "GREAT" "great" (by decide)
